import Mathlib

set_option linter.unreachableTactic false
set_option linter.unusedTactic false

/-!
Shallow embedding of the `LFTP` fluent command builder (src/src/lftp.js).

JavaScript values are modelled by the inductive type `JSVal`; JS numbers are
modelled as integers (the source only manipulates integer literals and
pass-through numeric option values).  Methods of the `LFTP` class become
functions from an explicit builder state to a pair of the post-call state and
an `Except`-value: `.error` models a thrown exception (`this.fail`), `.ok`
carries the JS return value of the method (`Ret.builder` for `return this`,
`Ret.val v` for any other value, in particular `undefined` for a method that
falls off its end without a `return`).
-/

/-- A JavaScript runtime value, as far as the lftp builder manipulates them. -/
inductive JSVal where
  | str (s : String)
  | num (n : Int)
  | bool (b : Bool)
  | undefined
  | null
  | arr (elems : List JSVal)
  | obj (fields : List (String × JSVal))

/-- JS truthiness (`if (v)`): empty string, 0, `false`, `undefined`, `null`
are falsy; every other value (including any array/object) is truthy. -/
def JSVal.truthy : JSVal → Bool
  | .str s => s ≠ ""
  | .num n => n ≠ 0
  | .bool b => b
  | .undefined => false
  | .null => false
  | .arr _ => true
  | .obj _ => true

/-- The `type-detect` library's classification, as used by the source
(`typeDetect(v) === 'string'` etc.). -/
def typeDetect : JSVal → String
  | .str _ => "string"
  | .num _ => "number"
  | .bool _ => "boolean"
  | .undefined => "undefined"
  | .null => "null"
  | .arr _ => "Array"
  | .obj _ => "Object"

/-- JS strict equality `===` on the values we model.  Reference types (arrays,
objects) compare by identity in JS; distinct literals in this embedding are
never identical, so they compare unequal. -/
def jsStrictEq : JSVal → JSVal → Bool
  | .str a, .str b => a = b
  | .num a, .num b => a = b
  | .bool a, .bool b => a = b
  | .undefined, .undefined => true
  | .null, .null => true
  | _, _ => false

mutual

/-- JS `String(v)` / template-literal interpolation of a value. -/
def jsToString : JSVal → String
  | .str s => s
  | .num n => toString n
  | .bool true => "true"
  | .bool false => "false"
  | .undefined => "undefined"
  | .null => "null"
  | .obj _ => "[object Object]"
  | .arr xs => String.intercalate "," (jsElemStrings xs)

/-- Stringification of array elements for `Array.prototype.join`/`toString`:
`undefined` and `null` become the empty string. -/
def jsElemStrings : List JSVal → List String
  | [] => []
  | v :: rest =>
      (match v with
       | .undefined => ""
       | .null => ""
       | v => jsToString v) :: jsElemStrings rest

end

/-- Conversion applied by `Array.prototype.join` to one element: like
`String(v)` except that `undefined`/`null` yield the empty string. -/
def jsJoinElem : JSVal → String
  | .undefined => ""
  | .null => ""
  | v => jsToString v

/-- JS short-circuit `a || b`. -/
def jsOr (a b : JSVal) : JSVal := if a.truthy then a else b

/-- lodash `toFinite`, restricted to the integer fragment we model: numeric
strings parse as integers, `NaN`-producing values (and non-integer numeric
strings, which the integer model cannot represent) collapse to 0. -/
def jsToFinite : JSVal → Int
  | .num n => n
  | .bool true => 1
  | .bool false => 0
  | .null => 0
  | .undefined => 0
  | v => ((jsToString v).trim.toInt?).getD 0

/-- lodash `_inRange(v, lo, hi)`: `lo ≤ toFinite v < hi`. -/
def jsInRange (v : JSVal) (lo hi : Int) : Bool :=
  lo ≤ jsToFinite v ∧ jsToFinite v < hi

/-- `v.hasOwnProperty(k)`.  Only object values own the (non-numeric,
non-`length`) keys the source ever queries. -/
def JSVal.hasOwn (v : JSVal) (k : String) : Bool :=
  match v with
  | .obj fields => fields.any (fun f => f.1 = k)
  | _ => false

/-- Property read `v[k]` for the string keys the source queries: `undefined`
on anything that does not own the key. -/
def JSVal.getProp (v : JSVal) (k : String) : JSVal :=
  match v with
  | .obj fields =>
      match fields.find? (fun f => f.1 = k) with
      | some f => f.2
      | none => .undefined
  | _ => .undefined

/-- lodash `_last` on the command queue: last element or `undefined`. -/
def jsLast (l : List String) : JSVal :=
  match l.getLast? with
  | some s => .str s
  | none => .undefined

/-- JS `String.prototype.toLowerCase`, restricted to the per-character case
mapping (the source only ever lowercases one of the ASCII protocol names
admitted by validation). -/
def jsToLowerCase (s : String) : String := String.mk (s.data.map Char.toLower)

/-! ## Shell escaping (src/src/lftp.js lines 66-80) -/

/-- The characters matched by the ECMAScript regex class `\s`. -/
def jsWhitespaceChars : List Char :=
  [Char.ofNat 0x9, Char.ofNat 0xA, Char.ofNat 0xB, Char.ofNat 0xC,
   Char.ofNat 0xD, Char.ofNat 0x20, Char.ofNat 0xA0, Char.ofNat 0x1680,
   Char.ofNat 0x2000, Char.ofNat 0x2001, Char.ofNat 0x2002, Char.ofNat 0x2003,
   Char.ofNat 0x2004, Char.ofNat 0x2005, Char.ofNat 0x2006, Char.ofNat 0x2007,
   Char.ofNat 0x2008, Char.ofNat 0x2009, Char.ofNat 0x200A, Char.ofNat 0x2028,
   Char.ofNat 0x2029, Char.ofNat 0x202F, Char.ofNat 0x205F, Char.ofNat 0x3000,
   Char.ofNat 0xFEFF]

/-- The single-character alternatives of the regex `/(["\s'$`...])/g` in
`escapeShell`: double quote, whitespace, single quote, dollar, backtick,
square brackets, backslash.  (Quote-like characters are spelled via their
code points.) -/
def escapeClassChar (c : Char) : Bool :=
  c = Char.ofNat 34 ∨ c ∈ jsWhitespaceChars ∨ c = Char.ofNat 39 ∨
  c = Char.ofNat 36 ∨ c = Char.ofNat 96 ∨ c = '[' ∨ c = ']' ∨ c = '\\'

/-- Left-to-right single pass of `String.prototype.replace` with a global
regex whose every match is a single character of the class above, replacing
each match `c` by `\c`.  Matches are non-overlapping and scanned in order. -/
def replaceScan : List Char → List Char
  | [] => []
  | c :: rest =>
      (if escapeClassChar c then [Char.ofNat 92, c] else [c]) ++ replaceScan rest

/-! ## The builder state (constructor, lines 9-38) -/

/-- The `this.options` record assembled by the constructor. -/
structure LFTPOptions where
  host : String
  username : JSVal
  password : JSVal
  protocol : String
  escape : JSVal
  retries : JSVal
  timeout : JSVal
  retryInterval : JSVal
  retryIntervalMultiplier : JSVal
  autoConfirm : JSVal

/-- The mutable instance state of one `LFTP` builder: its normalized options,
the spawn working directory (external boundary, carried but unused by the
pure core) and the command queue `this.cmds`. -/
structure LFTP where
  options : LFTPOptions
  spawnCwd : Option JSVal := none
  cmds : List String

/-- The JS return value of a builder method: the builder itself
(`return this`) or an arbitrary value (in particular `undefined` for a
method without a `return`). -/
inductive Ret where
  | builder
  | val (v : JSVal)

/-- `fail(msg)` (line 40): throw `new Error(msg)` — the instance state at the
moment of the throw is preserved. -/
def LFTP.fail (st : LFTP) (msg : String) : LFTP × Except String Ret :=
  (st, .error msg)

/-- `validateOptions(opts)` (lines 44-64).  Note the source's
`opts.requiresPassword || true`, which is always truthy. -/
def LFTP.validateOptions (opts : JSVal) : Except String Unit := do
  if ¬opts.hasOwn "host" then
    throw "LFTP opts must include host"
  if ¬opts.hasOwn "username" then
    throw "LFTP opts must include username"
  let requiresPassword := jsOr (opts.getProp "requiresPassword") (.bool true)
  if requiresPassword.truthy ∧ ¬opts.hasOwn "password" then
    throw "LFTP opts must include password"
  let acceptableProtocols : List JSVal := [.str "ftp", .str "sftp", .str "ftps"]
  if opts.hasOwn "protocol" ∧
      ¬(acceptableProtocols.any (fun p => jsStrictEq p (opts.getProp "protocol"))) then
    throw "LFTP opts.protocol must be ftp, sftp, or ftps."

/-- The constructor (lines 10-38): validate, normalize protocol/port/host,
fill defaulted option fields, record the optional spawn cwd, start with an
empty queue.  `(opts.protocol || 'sftp').toLowerCase()` would throw a
`TypeError` on a truthy non-string, which validation has already excluded. -/
def LFTP.construct (opts : JSVal) : Except String LFTP := do
  LFTP.validateOptions opts
  let protocol ← match jsOr (opts.getProp "protocol") (.str "sftp") with
    | .str s => pure (jsToLowerCase s)
    | _ => throw "TypeError: toLowerCase is not a function"
  let port := jsOr (opts.getProp "port") (.num 22)
  let host := protocol ++ "://" ++ jsToString (opts.getProp "host") ++ ":" ++ jsToString port
  pure
    { options :=
        { host := host
          username := opts.getProp "username"
          password := jsOr (opts.getProp "password") (.str "")
          protocol := protocol
          escape := if opts.hasOwn "escape" then opts.getProp "escape" else .bool true
          retries := jsOr (opts.getProp "retries") (.num 1)
          timeout := jsOr (opts.getProp "timeout") (.num 10)
          retryInterval := jsOr (opts.getProp "retryInterval") (.num 5)
          retryIntervalMultiplier := jsOr (opts.getProp "retryIntervalMultiplier") (.num 1)
          autoConfirm := if opts.hasOwn "autoConfirm" then opts.getProp "autoConfirm" else .bool false }
      spawnCwd := if opts.hasOwn "cwd" then some (opts.getProp "cwd") else none
      cmds := [] }

/-- `escapeShell(cmd)` (lines 66-72): empty string for non-strings, otherwise
the global single-pass regex replacement prefixing each matched character
with a backslash. -/
def LFTP.escapeShell (_st : LFTP) (cmd : JSVal) : String :=
  match cmd with
  | .str s => String.mk (replaceScan s.data)
  | _ => ""

/-- `_escapeShell(cmd)` (lines 74-80): apply `escapeShell` when the escape
option is truthy, otherwise pass the value through unchanged. -/
def LFTP._escapeShell (st : LFTP) (cmd : JSVal) : JSVal :=
  if st.options.escape.truthy then .str (st.escapeShell cmd) else cmd

/-! ## Preamble and executor (lines 82-140) -/

/-- `baseCmd()` (lines 82-106): the connection preamble, built by sequential
pushes onto a local array. -/
def LFTP.baseCmd (st : LFTP) : List String :=
  let cmd : List String := []
  let cmd := if st.options.protocol = "sftp" && st.options.autoConfirm.truthy
    then cmd ++ ["set sftp:auto-confirm yes"] else cmd
  let cmd := cmd ++ ["set net:max-retries " ++ jsToString st.options.retries]
  let cmd := cmd ++ ["set net:timeout " ++ jsToString st.options.timeout]
  let cmd := cmd ++ ["set net:reconnect-interval-base " ++ jsToString st.options.retryInterval]
  let cmd := cmd ++
    ["set net:reconnect-interval-multiplier " ++ jsToString st.options.retryIntervalMultiplier]
  let cmd := cmd ++
    ["open -u \"" ++ jsToString (st._escapeShell st.options.username) ++ "\",\"" ++
      jsToString (st._escapeShell st.options.password) ++ "\" \"" ++ st.options.host ++ "\""]
  cmd

/-- The pure core of `exec(extraCmds)` (lines 108-120): build
preamble ++ extra commands ++ queued commands, join with `;`, and drain the
queue.  The spawned subprocess and the promise wiring are the external
boundary and are not modelled; this function returns the joined command
string handed to `spawn` together with the post-call state. -/
def LFTP.execString (st : LFTP) (extraCmds : JSVal := .undefined) : String × LFTP :=
  let cmd := st.baseCmd
  let cmd :=
    if typeDetect extraCmds = "string" then cmd ++ [jsToString extraCmds]
    else match extraCmds with
      | .arr xs => cmd ++ jsElemStrings xs
      | _ => cmd
  let cmd := cmd ++ st.cmds
  (String.intercalate ";" cmd, { st with cmds := [] })

/-! ## Subcommand builders (lines 142-766) -/

/-- `raw(cmd)` (lines 142-148): push only string-typed commands, always
return the builder. -/
def LFTP.raw (st : LFTP) (cmd : JSVal) : LFTP × Except String Ret :=
  if typeDetect cmd = "string" then
    ({ st with cmds := st.cmds ++ [jsToString cmd] }, .ok .builder)
  else
    (st, .ok .builder)

/-- `alias(name, value)` (lines 150-164). -/
def LFTP.alias (st : LFTP) (name : JSVal := .undefined) (value : JSVal := .undefined) :
    LFTP × Except String Ret :=
  if ¬name.truthy then st.raw (.str "alias")
  else if ¬value.truthy then
    st.raw (.str ("alias " ++ jsToString (st._escapeShell name)))
  else
    st.raw (.str ("alias " ++ jsToString (st._escapeShell name) ++ " " ++
      jsToString (st._escapeShell value)))

/-- `at(time)` (lines 166-172). -/
def LFTP.«at» (st : LFTP) (time : JSVal := .undefined) : LFTP × Except String Ret :=
  if ¬time.truthy then st.fail "at() requires time argument"
  else st.raw (.str ("at " ++ jsToString (st._escapeShell time)))

/-- `attach(pid)` (lines 174-180). -/
def LFTP.attach (st : LFTP) (pid : JSVal := .undefined) : LFTP × Except String Ret :=
  if ¬pid.truthy then st.fail "attach() requires pid argument"
  else st.raw (.str ("attach " ++ jsToString pid))

/-- `bookmark(subCmd, opts = {})` (lines 182-227): switch over the strict
string cases; a thrown `fail` skips the final `raw`. -/
def LFTP.bookmark (st : LFTP) (subCmd : JSVal := .undefined) (opts : JSVal := .obj []) :
    LFTP × Except String Ret :=
  match subCmd with
  | .str "add" =>
      if opts.hasOwn "name" then
        let cmd := ["bookmark", "add " ++ jsToString (st._escapeShell (opts.getProp "name"))]
        let cmd := if opts.hasOwn "loc"
          then cmd ++ [jsJoinElem (st._escapeShell (opts.getProp "loc"))] else cmd
        st.raw (.str (String.intercalate " " cmd))
      else st.fail "bookmark(add) opts argument requires name property"
  | .str "del" =>
      if opts.hasOwn "name" then
        st.raw (.str (String.intercalate " "
          ["bookmark", "del " ++ jsToString (st._escapeShell (opts.getProp "name"))]))
      else st.fail "bookmark(del) opts argument requires name property"
  | .str "edit" => st.raw (.str (String.intercalate " " ["bookmark", "edit"]))
  | .str "import" =>
      if opts.hasOwn "type" then
        st.raw (.str (String.intercalate " "
          ["bookmark", "import " ++ jsToString (st._escapeShell (opts.getProp "type"))]))
      else st.fail "bookmark(import) opts argument requires type property"
  | .str "list" => st.raw (.str (String.intercalate " " ["bookmark", "list"]))
  | _ => st.fail "bookmark() requires subCmd argument"

/-- `cache(subCmd, opts = {})` (lines 229-266). -/
def LFTP.cache (st : LFTP) (subCmd : JSVal := .undefined) (opts : JSVal := .obj []) :
    LFTP × Except String Ret :=
  match subCmd with
  | .str "stat" => st.raw (.str (String.intercalate " " ["cache", "stat"]))
  | .str "on" => st.raw (.str (String.intercalate " " ["cache", "on"]))
  | .str "off" => st.raw (.str (String.intercalate " " ["cache", "off"]))
  | .str "flush" => st.raw (.str (String.intercalate " " ["cache", "flush"]))
  | .str "size" =>
      if opts.hasOwn "lim" then
        st.raw (.str (String.intercalate " "
          ["cache", "size " ++ jsToString (opts.getProp "lim")]))
      else st.fail "cache(size) opts argument requires lim property"
  | .str "expire" =>
      let acceptableUnits : List JSVal := [.str "s", .str "m", .str "h", .str "d"]
      if opts.hasOwn "n" ∧ opts.hasOwn "unit" ∧
          acceptableUnits.any (fun u => jsStrictEq u (opts.getProp "unit")) then
        st.raw (.str (String.intercalate " "
          ["cache", "expire " ++ jsToString (opts.getProp "n") ++ jsToString (opts.getProp "unit")]))
      else st.fail "cache(expire) opts argument requires n and unit properties"
  | _ => st.fail "cache() requires subCmd argument"

/-- `cat(path)` (lines 268-274). -/
def LFTP.cat (st : LFTP) (path : JSVal := .undefined) : LFTP × Except String Ret :=
  if ¬path.truthy then st.fail "cat() requires path argument"
  else st.raw (.str ("cat " ++ jsToString (st._escapeShell path)))

/-- `cd(dir)` (lines 276-282). -/
def LFTP.cd (st : LFTP) (dir : JSVal := .undefined) : LFTP × Except String Ret :=
  if ¬dir.truthy then st.fail "cd() requires dir argument"
  else st.raw (.str ("cd " ++ jsToString (st._escapeShell dir)))

/-- `chmod(mode, ...files)` (lines 284-294). -/
def LFTP.chmod (st : LFTP) (mode : JSVal := .undefined) (files : List JSVal := []) :
    LFTP × Except String Ret :=
  if ¬mode.truthy then st.fail "chmod() requires mode argument"
  else if files.length = 0 then st.fail "chmod() requires files argument(s)"
  else
    let filesStr := String.intercalate " " (files.map (fun f => jsJoinElem (st._escapeShell f)))
    st.raw (.str ("chmod " ++ jsToString mode ++ " " ++ filesStr))

/-- `close(all = false)` (lines 296-304). -/
def LFTP.close (st : LFTP) (all : JSVal := .bool false) : LFTP × Except String Ret :=
  let cmd := ["close"]
  let cmd := if all.truthy then cmd ++ ["-a"] else cmd
  st.raw (.str (String.intercalate " " cmd))

/-- `cls(opts = {})` (lines 306-318). -/
def LFTP.cls (st : LFTP) (opts : JSVal := .obj []) : LFTP × Except String Ret :=
  let cmd := ["cls"]
  let cmd := if (opts.getProp "singleColumn").truthy then cmd ++ ["-1"] else cmd
  let cmd := if (opts.getProp "dirsFirst").truthy then cmd ++ ["-D"] else cmd
  st.raw (.str (String.intercalate " " cmd))

/-- `debug(level, opts = {})` (lines 332-364). -/
def LFTP.debug (st : LFTP) (level : JSVal := .undefined) (opts : JSVal := .obj []) :
    LFTP × Except String Ret :=
  if ¬level.truthy then st.fail "debug() requires level argument"
  else if typeDetect level = "string" && ¬jsStrictEq level (.str "off") then
    st.fail "debug() level argument must be a number or \"off\""
  else
    let cmd := ["debug"]
    let cmd := if opts.hasOwn "truncate" then cmd ++ ["-T"] else cmd
    let cmd := if opts.hasOwn "outputFile"
      then cmd ++ ["-o " ++ jsToString (st._escapeShell (opts.getProp "outputFile"))] else cmd
    let cmd := if opts.hasOwn "context" then cmd ++ ["-c"] else cmd
    let cmd := if opts.hasOwn "pid" then cmd ++ ["-p"] else cmd
    let cmd := if opts.hasOwn "timestamps" then cmd ++ ["-t"] else cmd
    let cmd := cmd ++ [jsJoinElem level]
    st.raw (.str (String.intercalate " " cmd))

/-- `echo(str)` (lines 366-368). -/
def LFTP.echo (st : LFTP) (s : JSVal := .undefined) : LFTP × Except String Ret :=
  st.raw (.str ("echo " ++ jsToString (st._escapeShell s)))

/-- `edit(file, opts = {})` (lines 370-390). -/
def LFTP.edit (st : LFTP) (file : JSVal := .undefined) (opts : JSVal := .obj []) :
    LFTP × Except String Ret :=
  if ¬file.truthy then st.fail "edit() requires file argument"
  else if typeDetect file ≠ "string" then st.fail "edit() file argument must be a string"
  else
    let cmd := ["edit"]
    let cmd := if (opts.getProp "keepTempFile").truthy then cmd ++ ["-k"] else cmd
    let cmd := if opts.hasOwn "tempFileLocation"
      then cmd ++ ["-o " ++ jsToString (opts.getProp "tempFileLocation")] else cmd
    let cmd := cmd ++ [jsJoinElem (st._escapeShell file)]
    st.raw (.str (String.intercalate " " cmd))

/-- `eval(args, opts = {})` (lines 392-406). -/
def LFTP.eval (st : LFTP) (args : JSVal := .undefined) (opts : JSVal := .obj []) :
    LFTP × Except String Ret :=
  if ¬args.truthy then st.fail "eval() requires args argument"
  else
    let cmd := ["eval"]
    let cmd := if opts.hasOwn "format"
      then cmd ++ ["-f " ++ jsToString (opts.getProp "format")] else cmd
    let cmd := cmd ++ [jsJoinElem args]
    st.raw (.str (String.intercalate " " cmd))

/-- `exit(subCmd, opts = {})` (lines 408-433).  The final `this.raw(...)` has
no `return`, so the method itself evaluates to `undefined` while the queue
entry is still appended. -/
def LFTP.exit (st : LFTP) (subCmd : JSVal := .undefined) (opts : JSVal := .obj []) :
    LFTP × Except String Ret :=
  let base? : Option String :=
    match subCmd with
    | .str "bg" => some "bg"
    | .str "top" => some "top"
    | .str "parent" => some "parent"
    | .str "kill" => some "kill"
    | _ => none
  match base? with
  | none => st.fail "exit() requires subCmd argument"
  | some b =>
      let cmd := ["exit", b]
      let cmd := if opts.hasOwn "code" then cmd ++ [jsJoinElem (opts.getProp "code")] else cmd
      ((st.raw (.str (String.intercalate " " cmd))).1, .ok (.val .undefined))

/-- `find(opts = {})` (lines 440-456). -/
def LFTP.find (st : LFTP) (opts : JSVal := .obj []) : LFTP × Except String Ret :=
  let cmd := ["find"]
  let cmd := if opts.hasOwn "maxScanDepth"
    then cmd ++ ["-d " ++ jsToString (opts.getProp "maxScanDepth")] else cmd
  let cmd := if (opts.getProp "longListing").truthy then cmd ++ ["-l"] else cmd
  let cmd := if opts.hasOwn "directory"
    then cmd ++ [jsJoinElem (st._escapeShell (opts.getProp "directory"))] else cmd
  st.raw (.str (String.intercalate " " cmd))

/-- `get(remotePath, opts = {})` (lines 458-492). -/
def LFTP.get (st : LFTP) (remotePath : JSVal := .undefined) (opts : JSVal := .obj []) :
    LFTP × Except String Ret :=
  if ¬remotePath.truthy then st.fail "get() require remotePath argument"
  else
    let cmd := ["get"]
    let cmd := if (opts.getProp "continue").truthy then cmd ++ ["-c"] else cmd
    let cmd := if (opts.getProp "deleteSrcOnSuccess").truthy then cmd ++ ["-E"] else cmd
    let cmd := if (opts.getProp "deleteTargetBefore").truthy then cmd ++ ["-e"] else cmd
    let cmd := if (opts.getProp "asciiMode").truthy then cmd ++ ["-a"] else cmd
    let cmd := if opts.hasOwn "base"
      then cmd ++ ["-O " ++ jsToString (st._escapeShell (opts.getProp "base"))] else cmd
    let cmd := cmd ++ [jsJoinElem (st._escapeShell remotePath)]
    let cmd := if opts.hasOwn "localPath"
      then cmd ++ ["-o " ++ jsToString (st._escapeShell (opts.getProp "localPath"))] else cmd
    st.raw (.str (String.intercalate " " cmd))

/-- `get1(remoteFile, opts = {})` (lines 494-528). -/
def LFTP.get1 (st : LFTP) (remoteFile : JSVal := .undefined) (opts : JSVal := .obj []) :
    LFTP × Except String Ret :=
  if ¬remoteFile.truthy then st.fail "get1() requires remoteFile argument"
  else
    let cmd := ["get1"]
    let cmd := if opts.hasOwn "destFileName"
      then cmd ++ ["-o " ++ jsToString (st._escapeShell (opts.getProp "destFileName"))] else cmd
    let cmd := if (opts.getProp "continue").truthy then cmd ++ ["-c"] else cmd
    let cmd := if (opts.getProp "deleteSrcOnSuccess").truthy then cmd ++ ["-E"] else cmd
    let cmd := if (opts.getProp "asciiMode").truthy then cmd ++ ["-a"] else cmd
    let cmd := if opts.hasOwn "srcRegion"
      then cmd ++ ["--source-region=" ++ jsToString (opts.getProp "srcRegion")] else cmd
    let cmd := if opts.hasOwn "targetPos"
      then cmd ++ ["--target-position=" ++ jsToString (opts.getProp "targetPos")] else cmd
    let cmd := cmd ++ [jsJoinElem (st._escapeShell remoteFile)]
    st.raw (.str (String.intercalate " " cmd))

/-- `glob(patterns, opts = {})` (lines 530-573). -/
def LFTP.glob (st : LFTP) (patterns : JSVal := .undefined) (opts : JSVal := .obj []) :
    LFTP × Except String Ret :=
  if ¬patterns.truthy then st.fail "glob() requires patterns argument"
  else
    let cmd := ["glob"]
    let cmd := if (opts.getProp "plainFiles").truthy then cmd ++ ["-f"] else cmd
    let cmd := if (opts.getProp "directories").truthy then cmd ++ ["-d"] else cmd
    let cmd := if (opts.getProp "allTypes").truthy then cmd ++ ["-a"] else cmd
    let existFlag := (opts.getProp "exist").truthy
    let cmd := if existFlag
      then cmd ++ ["--exist " ++ jsToString (st._escapeShell patterns)] else cmd
    let notExistFlag := (opts.getProp "notExist").truthy
    let cmd := if notExistFlag
      then cmd ++ ["--not-exist " ++ jsToString (st._escapeShell patterns)] else cmd
    let existanceSpecified := existFlag || notExistFlag
    let commandSpecified := opts.hasOwn "command"
    if existanceSpecified && commandSpecified then
      st.raw (.str (String.intercalate " "
        (cmd ++ ["&& " ++ jsToString (opts.getProp "command")])))
    else if ¬existanceSpecified && commandSpecified then
      st.raw (.str (String.intercalate " "
        (cmd ++ [jsJoinElem (opts.getProp "command"), jsJoinElem (st._escapeShell patterns)])))
    else if ¬existanceSpecified && ¬commandSpecified then
      st.fail "glob() opts argument requires exist, notExist, and/or command properties"
    else
      st.raw (.str (String.intercalate " " cmd))

/-- `help(opts = {})` (lines 575-583). -/
def LFTP.help (st : LFTP) (opts : JSVal := .obj []) : LFTP × Except String Ret :=
  let cmd := ["help"]
  let cmd := if opts.hasOwn "command" then cmd ++ [jsJoinElem (opts.getProp "command")] else cmd
  st.raw (.str (String.intercalate " " cmd))

/-- `jobs(opts = {})` (lines 585-601). -/
def LFTP.jobs (st : LFTP) (opts : JSVal := .obj []) : LFTP × Except String Ret :=
  let cmd := ["jobs"]
  let cmd := if opts.hasOwn "verbosity" && jsInRange (opts.getProp "verbosity") 1 4 then
      cmd ++ ["-" ++ String.join (List.replicate (jsToFinite (opts.getProp "verbosity")).toNat "v")]
    else cmd
  let cmd := if (opts.getProp "notRecursive").truthy then cmd ++ ["-r"] else cmd
  let cmd := if opts.hasOwn "jobNumber" then cmd ++ [jsJoinElem (opts.getProp "jobNumber")] else cmd
  st.raw (.str (String.intercalate " " cmd))

/-- `kill(opts = {})` (lines 603-611). -/
def LFTP.kill (st : LFTP) (opts : JSVal := .obj []) : LFTP × Except String Ret :=
  let cmd := ["kill"]
  let cmd := if opts.hasOwn "jobNumber" then cmd ++ [jsJoinElem (opts.getProp "jobNumber")] else cmd
  st.raw (.str (String.intercalate " " cmd))

/-- `lcd(dir)` (lines 613-615). -/
def LFTP.lcd (st : LFTP) (dir : JSVal := .undefined) : LFTP × Except String Ret :=
  st.raw (.str ("lcd " ++ jsToString (st._escapeShell dir)))

/-- `ln(existingFile, newLink, opts = {})` (lines 617-634). -/
def LFTP.ln (st : LFTP) (existingFile : JSVal := .undefined) (newLink : JSVal := .undefined)
    (opts : JSVal := .obj []) : LFTP × Except String Ret :=
  if ¬existingFile.truthy then st.fail "ln() requires existingFile argument"
  else if ¬newLink.truthy then st.fail "ln() requires newLink argument"
  else
    let cmd := ["ln"]
    let cmd := if (opts.getProp "symbolic").truthy then cmd ++ ["-s"] else cmd
    let cmd := cmd ++ [jsJoinElem (st._escapeShell existingFile)]
    let cmd := cmd ++ [jsJoinElem (st._escapeShell newLink)]
    st.raw (.str (String.intercalate " " cmd))

/-- `local(command)` (lines 636-642); the argument is embedded unescaped. -/
def LFTP.«local» (st : LFTP) (command : JSVal := .undefined) : LFTP × Except String Ret :=
  if ¬command.truthy then st.fail "local() requires command argument"
  else st.raw (.str ("local " ++ jsToString command))

/-- `lpwd()` (lines 644-646). -/
def LFTP.lpwd (st : LFTP) : LFTP × Except String Ret := st.raw (.str "lpwd")

/-- `ls()` (lines 648-650). -/
def LFTP.ls (st : LFTP) : LFTP × Except String Ret := st.raw (.str "ls")

/-- `pwd()` (lines 652-654). -/
def LFTP.pwd (st : LFTP) : LFTP × Except String Ret := st.raw (.str "pwd")

/-- `put(localPath, opts = {})` (lines 656-671). -/
def LFTP.put (st : LFTP) (localPath : JSVal := .undefined) (opts : JSVal := .obj []) :
    LFTP × Except String Ret :=
  if ¬localPath.truthy then st.fail "put() requires localPath argument"
  else
    let remotePath := opts.getProp "remotePath"
    if ¬remotePath.truthy then
      st.raw (.str ("put " ++ jsToString (st._escapeShell localPath)))
    else
      st.raw (.str ("put " ++ jsToString (st._escapeShell localPath) ++ " -o " ++
        jsToString (st._escapeShell remotePath)))

/-- `mv(src, dest)` (lines 673-681). -/
def LFTP.mv (st : LFTP) (src : JSVal := .undefined) (dest : JSVal := .undefined) :
    LFTP × Except String Ret :=
  if ¬src.truthy then st.fail "mv() requires src argument"
  else if ¬dest.truthy then st.fail "mv() requires dest argument"
  else
    st.raw (.str ("mv " ++ jsToString (st._escapeShell src) ++ " " ++
      jsToString (st._escapeShell dest)))

/-- `rm(...files)` (lines 683-691). -/
def LFTP.rm (st : LFTP) (files : List JSVal := []) : LFTP × Except String Ret :=
  if files.length = 0 then st.fail "rm() requires files argument(s)"
  else
    let filesStr := String.intercalate " " (files.map (fun f => jsJoinElem (st._escapeShell f)))
    st.raw (.str ("rm " ++ filesStr))

/-- `rmdir(...directories)` (lines 693-703). -/
def LFTP.rmdir (st : LFTP) (directories : List JSVal := []) : LFTP × Except String Ret :=
  if directories.length = 0 then st.fail "rmdir() requires directories argument(s)"
  else
    let directoriesStr :=
      String.intercalate " " (directories.map (fun d => jsJoinElem (st._escapeShell d)))
    st.raw (.str ("rmdir " ++ directoriesStr))

/-- A one-character string holding an apostrophe (used by `mirror`'s
`--include` flag). -/
def singleQuote : String := String.mk [Char.ofNat 39]

/-- `mirror(remoteDir, opts = {})` (lines 705-746). -/
def LFTP.mirror (st : LFTP) (remoteDir : JSVal := .undefined) (opts : JSVal := .obj []) :
    LFTP × Except String Ret :=
  let upload := opts.getProp "upload"
  let localDir := opts.getProp "localDir"
  if ¬remoteDir.truthy then st.fail "mirror() requires remoteDir argument"
  else if upload.truthy && ¬localDir.truthy then
    st.fail "mirror(opts = {upload: true}) opts argument requires localDir property"
  else
    let cmd := if (opts.getProp "queue").truthy then ["queue mirror"] else ["mirror"]
    let cmd := if upload.truthy then cmd ++ ["--reverse"] else cmd
    let cmd := if opts.hasOwn "parallel"
      then cmd ++ ["--parallel=" ++ jsToString (opts.getProp "parallel")] else cmd
    let cmd := if opts.hasOwn "filter"
      then cmd ++ ["--include=" ++ singleQuote ++ jsToString (opts.getProp "filter") ++ singleQuote]
      else cmd
    let cmd := if opts.hasOwn "pget"
      then cmd ++ ["--use-pget-n=" ++ jsToString (opts.getProp "pget")] else cmd
    let cmd := if opts.hasOwn "options" then cmd ++ [jsJoinElem (opts.getProp "options")] else cmd
    let cmd :=
      if upload.truthy then
        cmd ++ [jsToString (st._escapeShell localDir) ++ " " ++ jsToString (st._escapeShell remoteDir)]
      else if ¬localDir.truthy then
        cmd ++ [jsToString (st._escapeShell remoteDir)]
      else
        cmd ++ [jsToString (st._escapeShell remoteDir) ++ " " ++ jsToString (st._escapeShell localDir)]
    st.raw (.str (String.intercalate " " cmd))

/-- `pget(remotePath, opts = {})` (lines 748-765). -/
def LFTP.pget (st : LFTP) (remotePath : JSVal := .undefined) (opts : JSVal := .obj []) :
    LFTP × Except String Ret :=
  if ¬remotePath.truthy then st.fail "pget() requires remotePath argument"
  else
    let cmd := if (opts.getProp "queue").truthy then ["queue pget"] else ["pget"]
    let n := jsOr (opts.getProp "n") (.num 4)
    let cmd := cmd ++ ["-n " ++ jsToString n]
    let cmd := cmd ++ [jsToString (st._escapeShell remotePath)]
    let localPath := opts.getProp "localPath"
    let cmd := if localPath.truthy
      then cmd ++ ["-o " ++ jsToString (st._escapeShell localPath)] else cmd
    st.raw (.str (String.intercalate " " cmd))

/-- The dynamic method lookup `this[cmd](args)` performed by `command()`
(line 326), modelled for the subcommand builder methods of the class (plus
`raw`).  JS passes the single argument `args`; remaining parameters take
their defaults (rest parameters collect the one argument).  Looking up any
other property yields a non-function, so the call site throws a `TypeError`;
`command` itself invoked through the table would immediately fail on its
missing second argument, and the impure `exec` lies outside this pure model,
so neither is listed. -/
def LFTP.dispatch (st : LFTP) (name : String) (args : JSVal) : LFTP × Except String Ret :=
  match name with
  | "raw" => st.raw args
  | "alias" => st.alias args
  | "at" => st.«at» args
  | "attach" => st.attach args
  | "bookmark" => st.bookmark args
  | "cache" => st.cache args
  | "cat" => st.cat args
  | "cd" => st.cd args
  | "chmod" => st.chmod args []
  | "close" => st.close args
  | "cls" => st.cls args
  | "debug" => st.debug args
  | "echo" => st.echo args
  | "edit" => st.edit args
  | "eval" => st.eval args
  | "exit" => st.exit args
  | "find" => st.find args
  | "get" => st.get args
  | "get1" => st.get1 args
  | "glob" => st.glob args
  | "help" => st.help args
  | "jobs" => st.jobs args
  | "kill" => st.kill args
  | "lcd" => st.lcd args
  | "ln" => st.ln args
  | "local" => st.«local» args
  | "lpwd" => st.lpwd
  | "ls" => st.ls
  | "pwd" => st.pwd
  | "put" => st.put args
  | "mv" => st.mv args
  | "rm" => st.rm [args]
  | "rmdir" => st.rmdir [args]
  | "mirror" => st.mirror args
  | "pget" => st.pget args
  | _ => (st, .error "TypeError: this[cmd] is not a function")

/-- `command(cmd, args)` (lines 320-330): invoke the named builder (which
appends its own queue entry), read `_last` of the queue of the returned
builder, and wrap it in a further `command ...` queue entry.  When the
delegated method returns `undefined`/`null` instead of the builder, the
`.cmds` access throws; any other non-builder value has no `cmds` property,
so `_last(undefined)` interpolates as `undefined`. -/
def LFTP.command (st : LFTP) (cmd : JSVal := .undefined) (args : JSVal := .undefined) :
    LFTP × Except String Ret :=
  if ¬cmd.truthy then st.fail "command() requires cmd argument"
  else if ¬args.truthy then st.fail "command() requires args argument"
  else
    match st.dispatch (jsToString cmd) args with
    | (st1, .ok .builder) =>
        st1.raw (.str ("command " ++ jsToString (jsLast st1.cmds)))
    | (st1, .ok (.val .undefined)) =>
        (st1, .error "TypeError: Cannot read properties of undefined (reading cmds)")
    | (st1, .ok (.val .null)) =>
        (st1, .error "TypeError: Cannot read properties of null (reading cmds)")
    | (st1, .ok (.val _)) =>
        st1.raw (.str ("command " ++ jsToString .undefined))
    | (st1, .error e) => (st1, .error e)

/-! ## Auxiliary predicates and concrete fixtures -/

/-- The queue of `st1` extends the queue of `st` with at most one entry. -/
def appendsLE1 (st st1 : LFTP) : Prop :=
  st1.cmds = st.cmds ∨ ∃ x, st1.cmds = st.cmds ++ [x]

/-- Options of a builder constructed from
`{host:'host', username:'username', password:'password'}` (all defaults). -/
def optFix : LFTPOptions :=
  { host := "sftp://host:22", username := .str "username", password := .str "password",
    protocol := "sftp", escape := .bool true, retries := .num 1, timeout := .num 10,
    retryInterval := .num 5, retryIntervalMultiplier := .num 1, autoConfirm := .bool false }

/-- A freshly constructed builder with default options and an empty queue. -/
def stFix : LFTP := { options := optFix, cmds := [] }

/-- Same options with `autoConfirm: true`. -/
def stAC : LFTP := { options := { optFix with autoConfirm := .bool true }, cmds := [] }

/-- Same options with `escape: false`. -/
def stNE : LFTP := { options := { optFix with escape := .bool false }, cmds := [] }

/-- The input of the spec's escaper example:
`[test] Test.mkv` followed by double quote, single quote, dollar, backtick,
backslash (quote-like characters spelled by code point). -/
def escInput : String :=
  String.mk ['[', 't', 'e', 's', 't', ']', ' ', 'T', 'e', 's', 't', '.', 'm', 'k', 'v',
    Char.ofNat 34, Char.ofNat 39, Char.ofNat 36, Char.ofNat 96, Char.ofNat 92]

/-- The expected output of the spec's escaper example: every special
character individually backslash-prefixed. -/
def escExpected : String :=
  String.mk [Char.ofNat 92, '[', 't', 'e', 's', 't', Char.ofNat 92, ']', Char.ofNat 92, ' ',
    'T', 'e', 's', 't', '.', 'm', 'k', 'v', Char.ofNat 92, Char.ofNat 34,
    Char.ofNat 92, Char.ofNat 39, Char.ofNat 92, Char.ofNat 36,
    Char.ofNat 92, Char.ofNat 96, Char.ofNat 92, Char.ofNat 92]

/-- The options bag of C8's counterexample: a falsy supplied port (`port: 0`)
accepted by construction. -/
def cexOpts8 : JSVal :=
  .obj [("host", .str "h"), ("username", .str "u"), ("password", .str "p"), ("port", .num 0)]

/-- Options bag for C8's witness (no port, no protocol supplied). -/
def wOpts8 : JSVal := .obj [("host", .str "h"), ("username", .str "u"), ("password", .str "p")]

/-- The builder state construction produces from `wOpts8`. -/
def wSt8 : LFTP :=
  { options :=
      { host := "sftp://h:22", username := .str "u", password := .str "p", protocol := "sftp",
        escape := .bool true, retries := .num 1, timeout := .num 10, retryInterval := .num 5,
        retryIntervalMultiplier := .num 1, autoConfirm := .bool false },
    cmds := [] }

/-! ## Helper lemmas -/

/-- `raw` never removes entries and appends at most one. -/
theorem raw_le1 (st : LFTP) (v : JSVal) : appendsLE1 st (st.raw v).1 := by
  unfold LFTP.raw
  split
  · exact Or.inr ⟨jsToString v, rfl⟩
  · exact Or.inl rfl

/-- `fail` leaves the state untouched. -/
theorem fail_le1 (st : LFTP) (m : String) : appendsLE1 st (st.fail m).1 :=
  Or.inl rfl

/-- The single-pass scan of the escape regex equals the character-wise
expansion of the input. -/
theorem replaceScan_eq_flatMap (l : List Char) :
    replaceScan l =
      l.flatMap (fun c => if escapeClassChar c then [Char.ofNat 92, c] else [c]) := by
  induction l with
  | nil => rfl
  | cons c rest ih => simp [replaceScan, ih]

/-! ## Claim theorems -/

/-- C10: `raw(cmd)` always returns the builder and never throws; it appends
`cmd` to the queue exactly when `cmd` is a string, and for any non-string
input it is a silent no-op leaving the queue unchanged. -/
theorem raw_appends_iff_string (st : LFTP) (v : JSVal) :
    (st.raw v).2 = .ok Ret.builder ∧
    (st.raw v).1.cmds =
      (match v with
       | .str s => st.cmds ++ [s]
       | _ => st.cmds) := by
  cases v <;> exact ⟨rfl, rfl⟩

/-- C9: with the escape option set to `false`, the escape-mode-aware escaper
`_escapeShell` is the identity on every value, strings and non-strings
alike. -/
theorem escape_disabled_identity (st : LFTP) (v : JSVal)
    (h : st.options.escape = .bool false) : st._escapeShell v = v := by
  unfold LFTP._escapeShell
  rw [h]
  rfl

/-- Witness for C9 at a concrete builder and a non-string input. -/
theorem escape_disabled_identity_witness : stNE._escapeShell (.num 5) = .num 5 :=
  escape_disabled_identity stNE (.num 5) rfl

/-- C1 (code bug): with host and username present, `requiresPassword: false`
and no password, construction still fails with the missing-password error,
because `opts.requiresPassword || true` is always truthy. -/
theorem password_required_despite_override :
    LFTP.construct
        (.obj [("host", .str "h"), ("username", .str "u"), ("requiresPassword", .bool false)]) =
      .error "LFTP opts must include password" := rfl

/-- C5 (code bug): `exit` with the recognized subCmd `bg` appends `exit bg`
to the queue but evaluates to `undefined` instead of returning the builder —
the final `this.raw(...)` lacks a `return`. -/
theorem exit_returns_undefined_not_builder (st : LFTP) :
    (st.exit (.str "bg")).2 = .ok (Ret.val .undefined) ∧
    Ret.val .undefined ≠ Ret.builder ∧
    (st.exit (.str "bg")).1.cmds = st.cmds ++ ["exit bg"] :=
  ⟨rfl, (fun h => Ret.noConfusion h), rfl⟩

/-- C3: `escapeShell` returns the empty string on every non-string value; on
a string it expands each character of the escape class (double quote,
whitespace, single quote, dollar, backtick, brackets, backslash) to a
backslash-prefixed pair, independently and in one left-to-right pass, leaving
all other characters unchanged; in particular the spec's concrete example
escapes to the expected result. -/
theorem escapeShell_spec (st : LFTP) (v : JSVal) (s : String) :
    (typeDetect v ≠ "string" → st.escapeShell v = "") ∧
    st.escapeShell (.str s) =
      String.mk (s.data.flatMap
        (fun c => if escapeClassChar c then [Char.ofNat 92, c] else [c])) ∧
    st.escapeShell (.str escInput) = escExpected := by
  refine ⟨?_, ?_, rfl⟩
  · intro h
    cases v <;> first | rfl | exact absurd rfl h
  · show String.mk (replaceScan s.data) = _
    rw [replaceScan_eq_flatMap]

/-- Witness for C3's non-string hypothesis at a concrete input. -/
theorem escapeShell_spec_witness :
    typeDetect (JSVal.num 3) ≠ "string" ∧ stFix.escapeShell (.num 3) = "" :=
  ⟨by decide, (escapeShell_spec stFix (.num 3) "").1 (by decide)⟩

/-- The preamble depends only on the connection options, not on the queue. -/
theorem baseCmd_update_cmds (st : LFTP) (l : List String) :
    LFTP.baseCmd { st with cmds := l } = st.baseCmd := rfl

/-- C2: with queue exactly `['cmd1','cmd2']` and no extra-commands argument,
the executor builds `<preamble>;cmd1;cmd2` (joined only by `;`) and empties
the queue in the same call; a following execution with no new subcommands
builds only the joined preamble. -/
theorem exec_joins_preamble_then_queue_and_drains (st : LFTP) :
    ({ st with cmds := ["cmd1", "cmd2"] }.execString .undefined) =
      (String.intercalate ";" (st.baseCmd ++ ["cmd1", "cmd2"]), { st with cmds := [] }) ∧
    ({ st with cmds := [] }.execString .undefined).1 = String.intercalate ";" st.baseCmd := by
  constructor
  · simp [LFTP.execString, typeDetect, baseCmd_update_cmds]
  · simp [LFTP.execString, typeDetect, baseCmd_update_cmds]

/-- C7: for a builder whose `autoConfirm` option is the boolean `b`, the
preamble is exactly: the auto-confirm statement (present iff the protocol is
`sftp` and `b` is true), then the four `set net:...` statements in order,
then the `open` statement with escaper-processed username/password and the
unescaped host URI. -/
theorem baseCmd_fixed_sequence (st : LFTP) (b : Bool)
    (h : st.options.autoConfirm = .bool b) :
    st.baseCmd =
      (if st.options.protocol = "sftp" ∧ b = true then ["set sftp:auto-confirm yes"] else []) ++
      ["set net:max-retries " ++ jsToString st.options.retries,
       "set net:timeout " ++ jsToString st.options.timeout,
       "set net:reconnect-interval-base " ++ jsToString st.options.retryInterval,
       "set net:reconnect-interval-multiplier " ++ jsToString st.options.retryIntervalMultiplier,
       "open -u \"" ++ jsToString (st._escapeShell st.options.username) ++ "\",\"" ++
         jsToString (st._escapeShell st.options.password) ++ "\" \"" ++ st.options.host ++ "\""] := by
  unfold LFTP.baseCmd
  rw [h]
  by_cases hp : st.options.protocol = "sftp" <;> cases b <;> simp [hp, JSVal.truthy]

/-- Witness for C7 at a concrete sftp builder with `autoConfirm: true`. -/
theorem baseCmd_fixed_sequence_witness :
    stAC.baseCmd =
      ["set sftp:auto-confirm yes", "set net:max-retries 1", "set net:timeout 10",
       "set net:reconnect-interval-base 5", "set net:reconnect-interval-multiplier 1",
       "open -u \"username\",\"password\" \"sftp://host:22\""] := by
  rw [baseCmd_fixed_sequence stAC true rfl]
  rfl

/-- C8 counterexample: with `port: 0` supplied, the normalized host string is
`sftp://h:22`, not the `sftp://h:0` the claim's "supplied port" wording
demands — `opts.port || 22` also replaces falsy supplied ports. -/
theorem host_defaults_on_falsy_port_cex :
    ((LFTP.construct cexOpts8).map fun st => st.options.host) = .ok "sftp://h:22" ∧
    "sftp://h:22" ≠ "sftp://h:0" :=
  ⟨by rfl, by decide⟩

/-- C8 (amended): for every options bag accepted by construction, the
normalized host string is `<protocol>://<host>:<port>` where the protocol is
the lower-cased supplied protocol falling back to `sftp` when absent (or
falsy), and the port is the supplied port falling back to 22 when absent or
falsy. -/
theorem host_string_shape (opts : JSVal) (st : LFTP)
    (h : LFTP.construct opts = .ok st) :
    ∃ p, jsOr (opts.getProp "protocol") (.str "sftp") = .str p ∧
      st.options.host = jsToLowerCase p ++ "://" ++ jsToString (opts.getProp "host") ++ ":" ++
        jsToString (jsOr (opts.getProp "port") (.num 22)) := by
  unfold LFTP.construct at h
  cases hv : LFTP.validateOptions opts with
  | error e => rw [hv] at h; simp [Bind.bind, Except.bind] at h
  | ok u =>
    rw [hv] at h
    cases hp : jsOr (opts.getProp "protocol") (.str "sftp") with
    | str p =>
      rw [hp] at h
      simp only [Bind.bind, Except.bind, pure, Except.pure] at h
      cases h
      exact ⟨p, rfl, rfl⟩
    | num n => rw [hp] at h; simp [Bind.bind, Except.bind] at h
    | bool b => rw [hp] at h; simp [Bind.bind, Except.bind] at h
    | undefined => rw [hp] at h; simp [Bind.bind, Except.bind] at h
    | null => rw [hp] at h; simp [Bind.bind, Except.bind] at h
    | arr xs => rw [hp] at h; simp [Bind.bind, Except.bind] at h
    | obj fs => rw [hp] at h; simp [Bind.bind, Except.bind] at h

/-- Witness for the amended C8 at a concrete accepted options bag. -/
theorem host_string_shape_witness :
    ∃ p, jsOr (wOpts8.getProp "protocol") (.str "sftp") = .str p ∧
      wSt8.options.host = jsToLowerCase p ++ "://" ++ jsToString (wOpts8.getProp "host") ++ ":" ++
        jsToString (jsOr (wOpts8.getProp "port") (.num 22)) :=
  host_string_shape wOpts8 wSt8 (by rfl)

/-- C4: every subcommand builder with required arguments, called with a
required argument omitted (or, for bookmark/cache/glob, the required
per-subcommand option missing), throws the corresponding argument error and
leaves the builder state — in particular the queue — exactly as it was. -/
theorem required_arg_missing_fails_and_preserves_queue (st : LFTP) :
    st.«at» .undefined = (st, .error "at() requires time argument") ∧
    st.cat .undefined = (st, .error "cat() requires path argument") ∧
    st.cd .undefined = (st, .error "cd() requires dir argument") ∧
    st.chmod .undefined [] = (st, .error "chmod() requires mode argument") ∧
    st.chmod (.str "644") [] = (st, .error "chmod() requires files argument(s)") ∧
    st.get .undefined = (st, .error "get() require remotePath argument") ∧
    st.get1 .undefined = (st, .error "get1() requires remoteFile argument") ∧
    st.glob .undefined = (st, .error "glob() requires patterns argument") ∧
    st.glob (.str "*") =
      (st, .error "glob() opts argument requires exist, notExist, and/or command properties") ∧
    st.ln .undefined .undefined = (st, .error "ln() requires existingFile argument") ∧
    st.ln (.str "a") .undefined = (st, .error "ln() requires newLink argument") ∧
    st.«local» .undefined = (st, .error "local() requires command argument") ∧
    st.mv .undefined .undefined = (st, .error "mv() requires src argument") ∧
    st.mv (.str "a") .undefined = (st, .error "mv() requires dest argument") ∧
    st.put .undefined = (st, .error "put() requires localPath argument") ∧
    st.rm [] = (st, .error "rm() requires files argument(s)") ∧
    st.rmdir [] = (st, .error "rmdir() requires directories argument(s)") ∧
    st.mirror .undefined = (st, .error "mirror() requires remoteDir argument") ∧
    st.bookmark .undefined = (st, .error "bookmark() requires subCmd argument") ∧
    st.bookmark (.str "add") = (st, .error "bookmark(add) opts argument requires name property") ∧
    st.cache .undefined = (st, .error "cache() requires subCmd argument") ∧
    st.cache (.str "size") = (st, .error "cache(size) opts argument requires lim property") :=
  ⟨rfl, rfl, rfl, rfl, rfl, rfl, rfl, rfl, rfl, rfl, rfl,
   rfl, rfl, rfl, rfl, rfl, rfl, rfl, rfl, rfl, rfl, rfl⟩

/-- Case combinator: a two-way branch whose both results append at most one
entry appends at most one entry. -/
theorem le1_ite (st : LFTP) (c : Prop) [Decidable c] (m₁ m₂ : LFTP × Except String Ret)
    (h₁ : appendsLE1 st m₁.1) (h₂ : appendsLE1 st m₂.1) :
    appendsLE1 st (if c then m₁ else m₂).1 := by
  split
  · exact h₁
  · exact h₂

theorem le1_alias (st : LFTP) (a b : JSVal) : appendsLE1 st (st.alias a b).1 := by
  unfold LFTP.alias
  try dsimp only []
  repeat' first | exact raw_le1 _ _ | exact fail_le1 _ _ | apply le1_ite | split

theorem le1_at (st : LFTP) (a : JSVal) : appendsLE1 st (st.«at» a).1 := by
  unfold LFTP.«at»
  try dsimp only []
  repeat' first | exact raw_le1 _ _ | exact fail_le1 _ _ | apply le1_ite | split

theorem le1_attach (st : LFTP) (a : JSVal) : appendsLE1 st (st.attach a).1 := by
  unfold LFTP.attach
  try dsimp only []
  repeat' first | exact raw_le1 _ _ | exact fail_le1 _ _ | apply le1_ite | split

theorem le1_bookmark (st : LFTP) (a o : JSVal) : appendsLE1 st (st.bookmark a o).1 := by
  unfold LFTP.bookmark
  try dsimp only []
  repeat' first | exact raw_le1 _ _ | exact fail_le1 _ _ | apply le1_ite | split

theorem le1_cache (st : LFTP) (a o : JSVal) : appendsLE1 st (st.cache a o).1 := by
  unfold LFTP.cache
  try dsimp only []
  repeat' first | exact raw_le1 _ _ | exact fail_le1 _ _ | apply le1_ite | split

theorem le1_cat (st : LFTP) (a : JSVal) : appendsLE1 st (st.cat a).1 := by
  unfold LFTP.cat
  try dsimp only []
  repeat' first | exact raw_le1 _ _ | exact fail_le1 _ _ | apply le1_ite | split

theorem le1_cd (st : LFTP) (a : JSVal) : appendsLE1 st (st.cd a).1 := by
  unfold LFTP.cd
  try dsimp only []
  repeat' first | exact raw_le1 _ _ | exact fail_le1 _ _ | apply le1_ite | split

theorem le1_chmod (st : LFTP) (a : JSVal) (fs : List JSVal) :
    appendsLE1 st (st.chmod a fs).1 := by
  unfold LFTP.chmod
  try dsimp only []
  repeat' first | exact raw_le1 _ _ | exact fail_le1 _ _ | apply le1_ite | split

theorem le1_close (st : LFTP) (a : JSVal) : appendsLE1 st (st.close a).1 := by
  unfold LFTP.close
  try dsimp only []
  repeat' first | exact raw_le1 _ _ | exact fail_le1 _ _ | apply le1_ite | split

theorem le1_cls (st : LFTP) (o : JSVal) : appendsLE1 st (st.cls o).1 := by
  unfold LFTP.cls
  try dsimp only []
  repeat' first | exact raw_le1 _ _ | exact fail_le1 _ _ | apply le1_ite | split

theorem le1_debug (st : LFTP) (a o : JSVal) : appendsLE1 st (st.debug a o).1 := by
  unfold LFTP.debug
  try dsimp only []
  repeat' first | exact raw_le1 _ _ | exact fail_le1 _ _ | apply le1_ite | split

theorem le1_echo (st : LFTP) (a : JSVal) : appendsLE1 st (st.echo a).1 := by
  unfold LFTP.echo
  try dsimp only []
  repeat' first | exact raw_le1 _ _ | exact fail_le1 _ _ | apply le1_ite | split

theorem le1_edit (st : LFTP) (a o : JSVal) : appendsLE1 st (st.edit a o).1 := by
  unfold LFTP.edit
  try dsimp only []
  repeat' first | exact raw_le1 _ _ | exact fail_le1 _ _ | apply le1_ite | split

theorem le1_eval (st : LFTP) (a o : JSVal) : appendsLE1 st (st.eval a o).1 := by
  unfold LFTP.eval
  try dsimp only []
  repeat' first | exact raw_le1 _ _ | exact fail_le1 _ _ | apply le1_ite | split

theorem le1_exit (st : LFTP) (a o : JSVal) : appendsLE1 st (st.exit a o).1 := by
  unfold LFTP.exit
  try dsimp only []
  repeat' first | exact raw_le1 _ _ | exact fail_le1 _ _ | apply le1_ite | split

theorem le1_find (st : LFTP) (o : JSVal) : appendsLE1 st (st.find o).1 := by
  unfold LFTP.find
  try dsimp only []
  repeat' first | exact raw_le1 _ _ | exact fail_le1 _ _ | apply le1_ite | split

theorem le1_get (st : LFTP) (a o : JSVal) : appendsLE1 st (st.get a o).1 := by
  unfold LFTP.get
  try dsimp only []
  repeat' first | exact raw_le1 _ _ | exact fail_le1 _ _ | apply le1_ite | split

theorem le1_get1 (st : LFTP) (a o : JSVal) : appendsLE1 st (st.get1 a o).1 := by
  unfold LFTP.get1
  try dsimp only []
  repeat' first | exact raw_le1 _ _ | exact fail_le1 _ _ | apply le1_ite | split

theorem le1_glob (st : LFTP) (a o : JSVal) : appendsLE1 st (st.glob a o).1 := by
  unfold LFTP.glob
  try dsimp only []
  repeat' first | exact raw_le1 _ _ | exact fail_le1 _ _ | apply le1_ite | split

theorem le1_help (st : LFTP) (o : JSVal) : appendsLE1 st (st.help o).1 := by
  unfold LFTP.help
  try dsimp only []
  repeat' first | exact raw_le1 _ _ | exact fail_le1 _ _ | apply le1_ite | split

theorem le1_jobs (st : LFTP) (o : JSVal) : appendsLE1 st (st.jobs o).1 := by
  unfold LFTP.jobs
  try dsimp only []
  repeat' first | exact raw_le1 _ _ | exact fail_le1 _ _ | apply le1_ite | split

theorem le1_kill (st : LFTP) (o : JSVal) : appendsLE1 st (st.kill o).1 := by
  unfold LFTP.kill
  try dsimp only []
  repeat' first | exact raw_le1 _ _ | exact fail_le1 _ _ | apply le1_ite | split

theorem le1_lcd (st : LFTP) (a : JSVal) : appendsLE1 st (st.lcd a).1 := by
  unfold LFTP.lcd
  exact raw_le1 _ _

theorem le1_ln (st : LFTP) (a b o : JSVal) : appendsLE1 st (st.ln a b o).1 := by
  unfold LFTP.ln
  try dsimp only []
  repeat' first | exact raw_le1 _ _ | exact fail_le1 _ _ | apply le1_ite | split

theorem le1_local (st : LFTP) (a : JSVal) : appendsLE1 st (st.«local» a).1 := by
  unfold LFTP.«local»
  try dsimp only []
  repeat' first | exact raw_le1 _ _ | exact fail_le1 _ _ | apply le1_ite | split

theorem le1_lpwd (st : LFTP) : appendsLE1 st st.lpwd.1 := by
  unfold LFTP.lpwd
  exact raw_le1 _ _

theorem le1_ls (st : LFTP) : appendsLE1 st st.ls.1 := by
  unfold LFTP.ls
  exact raw_le1 _ _

theorem le1_pwd (st : LFTP) : appendsLE1 st st.pwd.1 := by
  unfold LFTP.pwd
  exact raw_le1 _ _

theorem le1_put (st : LFTP) (a o : JSVal) : appendsLE1 st (st.put a o).1 := by
  unfold LFTP.put
  try dsimp only []
  repeat' first | exact raw_le1 _ _ | exact fail_le1 _ _ | apply le1_ite | split

theorem le1_mv (st : LFTP) (a b : JSVal) : appendsLE1 st (st.mv a b).1 := by
  unfold LFTP.mv
  try dsimp only []
  repeat' first | exact raw_le1 _ _ | exact fail_le1 _ _ | apply le1_ite | split

theorem le1_rm (st : LFTP) (fs : List JSVal) : appendsLE1 st (st.rm fs).1 := by
  unfold LFTP.rm
  try dsimp only []
  repeat' first | exact raw_le1 _ _ | exact fail_le1 _ _ | apply le1_ite | split

theorem le1_rmdir (st : LFTP) (fs : List JSVal) : appendsLE1 st (st.rmdir fs).1 := by
  unfold LFTP.rmdir
  try dsimp only []
  repeat' first | exact raw_le1 _ _ | exact fail_le1 _ _ | apply le1_ite | split

theorem le1_mirror (st : LFTP) (a o : JSVal) : appendsLE1 st (st.mirror a o).1 := by
  unfold LFTP.mirror
  try dsimp only []
  repeat' first | exact raw_le1 _ _ | exact fail_le1 _ _ | apply le1_ite | split

theorem le1_pget (st : LFTP) (a o : JSVal) : appendsLE1 st (st.pget a o).1 := by
  unfold LFTP.pget
  try dsimp only []
  repeat' first | exact raw_le1 _ _ | exact fail_le1 _ _ | apply le1_ite | split

/-- `echo('test')` appends exactly `echo test` whatever the escape mode. -/
theorem echo_test_eq (st : LFTP) :
    st.echo (.str "test") = ({ st with cmds := st.cmds ++ ["echo test"] }, .ok .builder) := by
  unfold LFTP.echo LFTP._escapeShell
  split <;> rfl

/-- `command('echo','test')` leaves both the delegated `echo test` entry and
the wrapped `command echo test` entry in the queue. -/
theorem command_echo_test (st : LFTP) :
    (st.command (.str "echo") (.str "test")).1.cmds =
      st.cmds ++ ["echo test", "command echo test"] := by
  have hd : st.dispatch "echo" (.str "test") =
      ({ st with cmds := st.cmds ++ ["echo test"] }, .ok .builder) := echo_test_eq st
  unfold LFTP.command
  simp only [JSVal.truthy]
  rw [show jsToString (JSVal.str "echo") = "echo" from rfl, hd]
  simp [LFTP.raw, jsLast, List.getLast?_concat, typeDetect, jsToString]

/-- C6 counterexample: on a freshly constructed builder (empty queue),
`command('echo','test')` succeeds, returns the builder, and leaves TWO new
entries in the queue — the delegated call inside `this[cmd](args)` pushes
`echo test` before the wrapper pushes `command echo test`. -/
theorem command_appends_two_entries :
    stFix.cmds = [] ∧
    (stFix.command (.str "echo") (.str "test")).2 = .ok Ret.builder ∧
    (stFix.command (.str "echo") (.str "test")).1.cmds = ["echo test", "command echo test"] :=
  ⟨rfl, rfl, rfl⟩

/-- C6 (amended): every subcommand builder call appends at most one entry at
the end of the queue for every queue state and all arguments — except
`command(cmd, args)`, which also keeps the entry queued by the delegated
subcommand builder and can therefore grow the queue by two, as
`command('echo','test')` does. -/
theorem subcommand_appends_at_most_one_except_command :
    (∀ (st : LFTP) (v : JSVal), appendsLE1 st (st.raw v).1) ∧
    (∀ (st : LFTP) (a b : JSVal), appendsLE1 st (st.alias a b).1) ∧
    (∀ (st : LFTP) (a : JSVal), appendsLE1 st (st.«at» a).1) ∧
    (∀ (st : LFTP) (a : JSVal), appendsLE1 st (st.attach a).1) ∧
    (∀ (st : LFTP) (a o : JSVal), appendsLE1 st (st.bookmark a o).1) ∧
    (∀ (st : LFTP) (a o : JSVal), appendsLE1 st (st.cache a o).1) ∧
    (∀ (st : LFTP) (a : JSVal), appendsLE1 st (st.cat a).1) ∧
    (∀ (st : LFTP) (a : JSVal), appendsLE1 st (st.cd a).1) ∧
    (∀ (st : LFTP) (a : JSVal) (fs : List JSVal), appendsLE1 st (st.chmod a fs).1) ∧
    (∀ (st : LFTP) (a : JSVal), appendsLE1 st (st.close a).1) ∧
    (∀ (st : LFTP) (o : JSVal), appendsLE1 st (st.cls o).1) ∧
    (∀ (st : LFTP) (a o : JSVal), appendsLE1 st (st.debug a o).1) ∧
    (∀ (st : LFTP) (a : JSVal), appendsLE1 st (st.echo a).1) ∧
    (∀ (st : LFTP) (a o : JSVal), appendsLE1 st (st.edit a o).1) ∧
    (∀ (st : LFTP) (a o : JSVal), appendsLE1 st (st.eval a o).1) ∧
    (∀ (st : LFTP) (a o : JSVal), appendsLE1 st (st.exit a o).1) ∧
    (∀ (st : LFTP) (o : JSVal), appendsLE1 st (st.find o).1) ∧
    (∀ (st : LFTP) (a o : JSVal), appendsLE1 st (st.get a o).1) ∧
    (∀ (st : LFTP) (a o : JSVal), appendsLE1 st (st.get1 a o).1) ∧
    (∀ (st : LFTP) (a o : JSVal), appendsLE1 st (st.glob a o).1) ∧
    (∀ (st : LFTP) (o : JSVal), appendsLE1 st (st.help o).1) ∧
    (∀ (st : LFTP) (o : JSVal), appendsLE1 st (st.jobs o).1) ∧
    (∀ (st : LFTP) (o : JSVal), appendsLE1 st (st.kill o).1) ∧
    (∀ (st : LFTP) (a : JSVal), appendsLE1 st (st.lcd a).1) ∧
    (∀ (st : LFTP) (a b o : JSVal), appendsLE1 st (st.ln a b o).1) ∧
    (∀ (st : LFTP) (a : JSVal), appendsLE1 st (st.«local» a).1) ∧
    (∀ st : LFTP, appendsLE1 st st.lpwd.1) ∧
    (∀ st : LFTP, appendsLE1 st st.ls.1) ∧
    (∀ st : LFTP, appendsLE1 st st.pwd.1) ∧
    (∀ (st : LFTP) (a o : JSVal), appendsLE1 st (st.put a o).1) ∧
    (∀ (st : LFTP) (a b : JSVal), appendsLE1 st (st.mv a b).1) ∧
    (∀ (st : LFTP) (fs : List JSVal), appendsLE1 st (st.rm fs).1) ∧
    (∀ (st : LFTP) (fs : List JSVal), appendsLE1 st (st.rmdir fs).1) ∧
    (∀ (st : LFTP) (a o : JSVal), appendsLE1 st (st.mirror a o).1) ∧
    (∀ (st : LFTP) (a o : JSVal), appendsLE1 st (st.pget a o).1) ∧
    (∀ st : LFTP, (st.command (.str "echo") (.str "test")).1.cmds =
      st.cmds ++ ["echo test", "command echo test"]) :=
  ⟨raw_le1, le1_alias, le1_at, le1_attach, le1_bookmark, le1_cache, le1_cat, le1_cd,
   le1_chmod, le1_close, le1_cls, le1_debug, le1_echo, le1_edit, le1_eval, le1_exit,
   le1_find, le1_get, le1_get1, le1_glob, le1_help, le1_jobs, le1_kill, le1_lcd,
   le1_ln, le1_local, le1_lpwd, le1_ls, le1_pwd, le1_put, le1_mv, le1_rm, le1_rmdir,
   le1_mirror, le1_pget, command_echo_test⟩
